import Mathlib

/-!
# Verification of the Ethicompanion backend moderation / retrieval / orchestration logic

Shallow embedding of the relevant parts of
`ethiccompanion-mvp/backend/app` into Lean 4:

* `services/ethical_guardrails_enhanced.py` (`EthicalGuardrailsService`)
* `services/ethical_guardrails.py` (legacy `EthicalGuardrails`)
* `services/llm_service_enhanced.py` (`LLMOrchestrator`)
* `services/rag_service_enhanced.py` (`EthicalRAGService`)
* `api/chat_enhanced.py` (`ask_ethical_guidance`)

Python strings are modelled as `List Char` (texts are lower-cased with an
ASCII `Char.toLower`, which matches Python `str.lower` on ASCII input);
Python floats carrying confidences / relevance scores are modelled as `ℚ`
(every literal in the source is an exact decimal and the only arithmetic is
`1.0 - score / 2.0` and `1.0 - distance`, both exact on the values of
interest).  `re.search` is modelled by a small executable matcher `reSearch`
covering exactly the constructs the source patterns use: literals,
alternation, concatenation, the word-boundary assertion `\b`, and `.*`
(where `.` does not match a newline, as in Python without `re.DOTALL`).
-/

namespace Ethicompanion

/-- ASCII lower-casing of a text, modelling Python `str.lower()`. -/
def lowerL (s : List Char) : List Char := s.map Char.toLower

/-- The apostrophe character, written by code point to keep source pattern
strings purely alphanumeric. -/
def apos : Char := Char.ofNat 39

/-- `needle` occurs as a contiguous substring of `hay`; models Python
`needle in hay` on strings. -/
def containsSub (needle hay : List Char) : Bool :=
  needle.isPrefixOf hay ||
    match hay with
    | [] => false
    | _ :: t => containsSub needle t

/-- Word characters for the regex `\b` assertion (`[A-Za-z0-9_]`; the
source texts and patterns are ASCII). -/
def isWordChar (c : Char) : Bool := c.isAlphanum || c == '_'

/-- Whether a `\b` word boundary holds between an (optional) character on
the left and an (optional) character on the right. -/
def wordBoundary (l r : Option Char) : Bool :=
  (match l with | none => false | some c => isWordChar c) !=
  (match r with | none => false | some c => isWordChar c)

/-- Regex fragments used by the source patterns. -/
inductive Pat : Type
  | lit : List Char → Pat
  | alt : Pat → Pat → Pat
  | seq : Pat → Pat → Pat
  | wb : Pat
  | dotStar : Pat

/-- Match a literal at the front of `rest`; returns the last consumed
character and the remainder on success. -/
def litMatch : List Char → Option Char → List Char → Option (Option Char × List Char)
  | [], prev, rest => some (prev, rest)
  | _ :: _, _, [] => none
  | c :: cs, _, d :: rest => if c == d then litMatch cs (some c) rest else none

/-- All ways `.*` can consume a newline-free prefix of `rest`. -/
def starSplits : Option Char → List Char → List (Option Char × List Char)
  | prev, [] => [(prev, [])]
  | prev, c :: rest =>
      (prev, c :: rest) :: (if c == '\n' then [] else starSplits (some c) rest)

/-- All ways a pattern can match a prefix of `rest`, given the character
`prev` immediately to the left of the current position.  Each result is the
last consumed character together with the unconsumed remainder. -/
def pmatch : Pat → Option Char → List Char → List (Option Char × List Char)
  | .lit s, prev, rest =>
      match litMatch s prev rest with
      | none => []
      | some pr => [pr]
  | .alt p q, prev, rest => pmatch p prev rest ++ pmatch q prev rest
  | .seq p q, prev, rest =>
      (pmatch p prev rest).flatMap fun pr => pmatch q pr.1 pr.2
  | .wb, prev, rest =>
      if wordBoundary prev rest.head? then [(prev, rest)] else []
  | .dotStar, prev, rest => starSplits prev rest

/-- The pattern matches starting at the current position or at any later
position of `s` (`prev` is the character to the left of the current
position). -/
def searchFrom (p : Pat) (prev : Option Char) (s : List Char) : Bool :=
  !(pmatch p prev s).isEmpty ||
    match s with
    | [] => false
    | c :: rest => searchFrom p (some c) rest

/-- Python `re.search(p, text) is not None`. -/
def reSearch (p : Pat) (text : List Char) : Bool := searchFrom p none text

/-- Alternation of a (nonempty) list of literal words. -/
def altLits : List (List Char) → Pat
  | [] => .lit []
  | [w] => .lit w
  | w :: ws => .alt (.lit w) (altLits ws)

/-- `\b P \b` around a pattern. -/
def bounded (p : Pat) : Pat := .seq .wb (.seq p .wb)

/-! ## `services/ethical_guardrails_enhanced.py` — `EthicalGuardrailsService` -/

/-- Result record of `moderate_content` (the `ModerationResult` dataclass). -/
structure ModerationResult where
  is_safe : Bool
  flags : List (List Char)
  confidence : ℚ
  explanation : List Char
  deriving Repr, DecidableEq

/-- Result dict of `_detect_crisis_situations`. -/
structure CrisisResult where
  is_crisis : Bool
  indicators : List (List Char)
  deriving Repr, DecidableEq

/-- Result dict of `_detect_off_topic_content`. -/
structure OffTopicResult where
  is_off_topic : Bool
  topics : List (List Char)
  deriving Repr, DecidableEq

/-- Result dict of `_check_basic_toxicity`. -/
structure ToxicityResult where
  is_toxic : Bool
  issues : List (List Char)
  deriving Repr, DecidableEq

/-- `_load_ethical_keywords`, flattened in the source's dict/list order
(categories `information_management`, `peace_techniques`,
`ethical_guidance`, `constructive_action`).  Only membership counting is
performed on it, so the flattening is faithful. -/
def ethical_keywords : List (List Char) :=
  [("information overload".toList), ("news fatigue".toList),
   ("digital overwhelm".toList), ("media consumption".toList),
   ("social media".toList), ("news anxiety".toList),
   ("fact checking".toList), ("misinformation".toList),
   ("filter bubble".toList),
   ("mindfulness".toList), ("meditation".toList), ("breathing".toList),
   ("stress relief".toList), ("anxiety".toList), ("calm".toList),
   ("peace".toList), ("relaxation".toList), ("grounding".toList),
   ("mental health".toList), ("wellness".toList), ("self care".toList),
   ("ethics".toList), ("moral".toList), ("values".toList),
   ("principles".toList), ("right".toList), ("wrong".toList),
   ("responsibility".toList), ("conscience".toList), ("integrity".toList),
   ("compassion".toList),
   ("help".toList), ("volunteer".toList), ("community".toList),
   ("support".toList), ("positive impact".toList),
   ("make a difference".toList), ("contribute".toList),
   ("assist".toList), ("aid".toList)]

/-- `_load_crisis_keywords` (the keyword `can't go on` is assembled around
`apos` to keep literals alphanumeric). -/
def crisis_keywords : List (List Char) :=
  [("suicide".toList), ("kill myself".toList), ("end it all".toList),
   ("can".toList ++ [apos] ++ "t go on".toList),
   ("self harm".toList), ("hurt myself".toList), ("cutting".toList),
   ("overdose".toList),
   ("emergency".toList), ("crisis".toList), ("desperate".toList),
   ("hopeless".toList),
   ("abuse".toList), ("violence".toList), ("threat".toList),
   ("danger".toList)]

/-- Crisis pattern `\bi want to (die|kill myself|end it all)\b`. -/
def crisisPat1 : Pat :=
  .seq .wb (.seq (.lit ("i want to ".toList))
    (.seq (altLits [("die".toList), ("kill myself".toList), ("end it all".toList)]) .wb))

/-- Crisis pattern `\bi can't (take it|go on|handle this) anymore\b`. -/
def crisisPat2 : Pat :=
  .seq .wb (.seq (.lit ("i can".toList ++ [apos] ++ "t ".toList))
    (.seq (altLits [("take it".toList), ("go on".toList), ("handle this".toList)])
      (.seq (.lit (" anymore".toList)) .wb)))

/-- Crisis pattern `\bnothing matters\b.*\bwhat's the point\b`. -/
def crisisPat3 : Pat :=
  .seq (bounded (.lit ("nothing matters".toList)))
    (.seq .dotStar (bounded (.lit ("what".toList ++ [apos] ++ "s the point".toList))))

/-- Crisis pattern `\bno one would miss me\b`. -/
def crisisPat4 : Pat := bounded (.lit ("no one would miss me".toList))

/-- The `crisis_patterns` list of `_detect_crisis_situations`. -/
def crisis_patterns : List Pat := [crisisPat1, crisisPat2, crisisPat3, crisisPat4]

/-- `_load_off_topic_patterns`, each paired with the topic name the source
extracts from the pattern text (`pattern.split(r'\b(')[1].split('|')[0]`). -/
def off_topic_patterns : List (Pat × List Char) :=
  [(bounded (altLits [("invest".toList), ("stock".toList), ("crypto".toList),
      ("bitcoin".toList), ("trading".toList), ("money".toList),
      ("financial advice".toList)]), ("invest".toList)),
   (bounded (altLits [("political".toList), ("election".toList),
      ("vote".toList), ("democrat".toList), ("republican".toList),
      ("liberal".toList), ("conservative".toList)]), ("political".toList)),
   (bounded (altLits [("medical".toList), ("doctor".toList),
      ("diagnose".toList), ("treatment".toList), ("medication".toList),
      ("prescription".toList)]), ("medical".toList)),
   (bounded (altLits [("legal".toList), ("lawyer".toList), ("court".toList),
      ("lawsuit".toList), ("sue".toList), ("illegal".toList)]), ("legal".toList)),
   (bounded (altLits [("sexual".toList), ("adult".toList),
      ("explicit".toList), ("nsfw".toList)]), ("sexual".toList))]

/-- Toxic pattern `\b(hate|stupid|idiot|moron|dumb)\b.*\b(people|person|you)\b`. -/
def toxicPat1 : Pat :=
  .seq (bounded (altLits [("hate".toList), ("stupid".toList),
      ("idiot".toList), ("moron".toList), ("dumb".toList)]))
    (.seq .dotStar (bounded (altLits [("people".toList), ("person".toList),
      ("you".toList)])))

/-- Toxic pattern `\b(kill|hurt|harm).*\b(others|someone|people)\b` (note:
no closing `\b` after the first group, exactly as in the source). -/
def toxicPat2 : Pat :=
  .seq .wb (.seq (altLits [("kill".toList), ("hurt".toList), ("harm".toList)])
    (.seq .dotStar (bounded (altLits [("others".toList), ("someone".toList),
      ("people".toList)]))))

/-- Toxic pattern `\bfuck (you|off|this)\b`. -/
def toxicPat3 : Pat :=
  .seq .wb (.seq (.lit ("fuck ".toList))
    (.seq (altLits [("you".toList), ("off".toList), ("this".toList)]) .wb))

/-- Toxic pattern `\b(racist|sexist|homophobic)\b`. -/
def toxicPat4 : Pat :=
  bounded (altLits [("racist".toList), ("sexist".toList), ("homophobic".toList)])

/-- The `toxic_patterns` list of `_check_basic_toxicity`. -/
def toxic_patterns : List Pat := [toxicPat1, toxicPat2, toxicPat3, toxicPat4]

/-- `keyword.replace(' ', '_')`. -/
def replaceSpace (kw : List Char) : List Char :=
  kw.map fun c => if c == ' ' then '_' else c

/-- `_detect_crisis_situations`: keyword indicators (in list order)
followed by one `crisis_pattern_detected` per matching crisis pattern. -/
def detect_crisis_situations (text : List Char) : CrisisResult :=
  let t := lowerL text
  let kwInds := (crisis_keywords.filter fun kw => containsSub kw t).map
    fun kw => ("crisis_indicator_".toList) ++ replaceSpace kw
  let patInds := (crisis_patterns.filter fun p => reSearch p t).map
    fun _ => ("crisis_pattern_detected".toList)
  let indicators := kwInds ++ patInds
  ⟨!indicators.isEmpty, indicators⟩

/-- `_detect_off_topic_content`: off-topic patterns are collected, the
on-topic keyword count is taken over all categories, and when both are
present the topic list is downgraded to `["mild_off_topic"]`; the
`is_off_topic` field additionally requires `on_topic_score == 0`. -/
def detect_off_topic_content (text : List Char) : OffTopicResult :=
  let t := lowerL text
  let detected := (off_topic_patterns.filter fun pr => reSearch pr.1 t).map
    fun pr => ("off_topic_".toList) ++ pr.2
  let on_topic_score := (ethical_keywords.filter fun kw => containsSub kw t).length
  let detected2 :=
    if !detected.isEmpty && on_topic_score > 0 then [("mild_off_topic".toList)]
    else detected
  ⟨!detected2.isEmpty && on_topic_score == 0, detected2⟩

/-- `_check_basic_toxicity`: the loop appends a single `toxic_language`
issue and breaks at the first matching pattern. -/
def check_basic_toxicity (text : List Char) : ToxicityResult :=
  let t := lowerL text
  let issues :=
    if toxic_patterns.any (fun p => reSearch p t) then [("toxic_language".toList)]
    else []
  ⟨!issues.isEmpty, issues⟩

/-- `_generate_explanation` (substring tests run over `" ".join(flags)`). -/
def generate_explanation (flags : List (List Char)) (is_safe : Bool) : List Char :=
  let joined := List.intercalate (" ".toList) flags
  if is_safe && flags.isEmpty then
    ("Content appears to be appropriate ethical guidance discussion.".toList)
  else if containsSub ("crisis".toList) joined then
    ("Content indicates a potential crisis situation. Please consider reaching out to mental health professionals or crisis hotlines.".toList)
  else if containsSub ("off_topic".toList) joined then
    ("Content appears to be outside EthicCompanion".toList ++ [apos] ++
     "s focus area of ethical information management and inner peace.".toList)
  else if containsSub ("toxic".toList) joined then
    ("Content contains potentially harmful language that doesn".toList ++ [apos] ++
     "t align with constructive ethical discussion.".toList)
  else
    ("Content flagged for review to ensure it aligns with ethical guidance principles.".toList)

/-- The `mild_off_topic` flag. -/
def mildFlag : List Char := "mild_off_topic".toList

/-- Body of the `try` block of `moderate_content`.  `external` is the list
of categories appended by the optional external-moderation step (empty when
no OpenAI client is configured, which is the default). -/
def moderate_content_core (external : List (List Char)) (text : List Char) :
    ModerationResult :=
  let crisis := detect_crisis_situations text
  let flags1 := if crisis.is_crisis then crisis.indicators else []
  let confidence : ℚ := if crisis.is_crisis then 95/100 else 8/10
  let offt := detect_off_topic_content text
  let flags2 := flags1 ++ (if offt.is_off_topic then offt.topics else [])
  let tox := check_basic_toxicity text
  let flags3 := flags2 ++ (if tox.is_toxic then tox.issues else [])
  let flags := flags3 ++ external
  let is_safe := flags.isEmpty || flags.all fun f => f == mildFlag
  ⟨is_safe, flags, confidence, generate_explanation flags is_safe⟩

/-- The permissive verdict returned by the `except` branch of
`moderate_content`. -/
def moderation_error_result : ModerationResult :=
  ⟨true, [("moderation_error".toList)], 1/10,
   ("Content moderation service temporarily unavailable".toList)⟩

/-- `moderate_content` with its `try/except` boundary: `fail` carries the
message of an exception raised inside the `try` block (`none` when the body
runs to completion).  The result type is `ModerationResult`, not an
exception monad: the function never propagates an error. -/
def moderate_content (fail : Option (List Char)) (external : List (List Char))
    (text : List Char) : ModerationResult :=
  match fail with
  | some _ => moderation_error_result
  | none => moderate_content_core external text

/-! ## `services/ethical_guardrails.py` — legacy `EthicalGuardrails` -/

/-- `self.harmful_keywords` of the legacy `EthicalGuardrails.__init__`. -/
def harmful_keywords : List (List Char) :=
  [("violence".toList), ("violência".toList), ("matar".toList),
   ("kill".toList), ("hurt".toList), ("ferir".toList),
   ("weapon".toList), ("arma".toList), ("bomb".toList), ("bomba".toList),
   ("hate".toList), ("ódio".toList), ("racism".toList), ("racismo".toList),
   ("sexism".toList), ("sexismo".toList), ("discrimination".toList),
   ("discriminação".toList),
   ("suicide".toList), ("suicídio".toList), ("self-harm".toList),
   ("autolesão".toList), ("cut myself".toList), ("me cortar".toList),
   ("sexual explicit".toList), ("sexo explícito".toList),
   ("pornography".toList), ("pornografia".toList),
   ("drugs".toList), ("drogas".toList), ("illegal".toList),
   ("ilegal".toList), ("crime".toList), ("criminal".toList)]

/-- `sum(1 for keyword in self.harmful_keywords if keyword in text_lower)`. -/
def harmful_count (t : List Char) : Nat :=
  (harmful_keywords.filter fun kw => containsSub kw t).length

/-- The `harmful_patterns` of `_check_harmful_patterns`. -/
def harmful_patterns : List Pat :=
  [.seq (.lit ("how to ".toList))
     (altLits [("kill".toList), ("hurt".toList), ("harm".toList)]),
   .seq (.lit ("como ".toList))
     (altLits [("matar".toList), ("ferir".toList), ("machucar".toList)]),
   .seq (.lit ("i want to ".toList))
     (altLits [("die".toList), ("kill myself".toList)]),
   .seq (.lit ("quero ".toList))
     (altLits [("morrer".toList), ("me matar".toList)]),
   .seq (.lit ("hate ".toList))
     (altLits [("all".toList), ("everyone".toList)]),
   .seq (.lit ("odeio ".toList))
     (altLits [("todos".toList), ("todo mundo".toList)])]

/-- `_check_harmful_patterns` on an already lower-cased text. -/
def check_harmful_patterns (t : List Char) : Bool :=
  harmful_patterns.any fun p => reSearch p t

/-- The `inappropriate_advice_patterns` of `_contains_inappropriate_advice`. -/
def inappropriate_advice_patterns : List Pat :=
  [.seq (.lit ("you should take ".toList))
     (altLits [("medication".toList), ("pills".toList), ("drugs".toList)]),
   .seq (.lit ("deve tomar ".toList))
     (altLits [("medicamento".toList), ("remédio".toList), ("droga".toList)]),
   .lit ("diagnose you with".toList),
   .lit ("diagnostico você com".toList),
   .seq (.lit ("legal advice".toList)) (.seq .dotStar (.lit ("sue".toList))),
   .seq (.lit ("conselho legal".toList)) (.seq .dotStar (.lit ("processar".toList))),
   .seq (.lit ("invest".toList)) (.seq .dotStar
     (.seq (.lit ("money".toList)) (.seq .dotStar (.lit ("guaranteed".toList))))),
   .seq (.lit ("invista".toList)) (.seq .dotStar
     (.seq (.lit ("dinheiro".toList)) (.seq .dotStar (.lit ("garantido".toList)))))]

/-- `_contains_inappropriate_advice` on an already lower-cased text. -/
def contains_inappropriate_advice (t : List Char) : Bool :=
  inappropriate_advice_patterns.any fun p => reSearch p t

/-- Legacy `check_input`: block on two or more harmful-keyword hits or on a
harmful pattern; otherwise the input is accepted. -/
def check_input (text : List Char) : Bool :=
  let t := lowerL text
  if harmful_count t ≥ 2 then false
  else if check_harmful_patterns t then false
  else true

/-- Legacy `check_output`: block on a single harmful-keyword hit or on an
inappropriate-advice pattern; otherwise the output is accepted. -/
def check_output (text : List Char) : Bool :=
  let t := lowerL text
  if harmful_count t ≥ 1 then false
  else if contains_inappropriate_advice t then false
  else true

/-! ## `services/llm_service_enhanced.py` — `LLMOrchestrator`

Provider availability is collapsed into one flag per provider: for
`gemini`/`claude`, `__init__` puts the provider in `self.providers` with
`available=True` exactly when its API key is present, and `available` is
never written afterwards, so presence in the dict and availability
coincide; `gemma_3n` is always present, carrying its own flag.  A provider
invocation is abstracted by an oracle `ok : ProvId → Bool` telling whether
`generate` succeeds or raises. -/

/-- The three providers the orchestrator dispatches on. -/
inductive ProvId : Type
  | gemini
  | claude
  | gemma_3n
  deriving DecidableEq, Repr

instance : Fintype ProvId :=
  ⟨⟨{ProvId.gemini, ProvId.claude, ProvId.gemma_3n}, by decide⟩, fun p => by cases p <;> decide⟩

/-- The availability flags of `self.providers` (see section comment). -/
structure OrchState where
  gemini : Bool
  claude : Bool
  gemma : Bool
  deriving DecidableEq, Repr

instance : Fintype OrchState :=
  Fintype.ofEquiv (Bool × Bool × Bool)
    { toFun := fun b => ⟨b.1, b.2.1, b.2.2⟩
      invFun := fun st => (st.gemini, st.claude, st.gemma)
      left_inv := fun _ => rfl
      right_inv := fun _ => rfl }

/-- `self.providers.get(p, {}).get("available")` under the collapse above. -/
def available (st : OrchState) : ProvId → Bool
  | .gemini => st.gemini
  | .claude => st.claude
  | .gemma_3n => st.gemma

/-- The `preferred_model` argument: `"auto"`, one of the known provider
names, or any other string (which is not a key of `self.providers`). -/
inductive Pref : Type
  | auto
  | specific : ProvId → Pref
  | unknown
  deriving DecidableEq, Repr

instance : Fintype Pref :=
  ⟨⟨{Pref.auto, Pref.unknown, Pref.specific .gemini, Pref.specific .claude,
     Pref.specific .gemma_3n}, by decide⟩, fun p => by
      cases p with
      | specific q => cases q <;> decide
      | _ => decide⟩

/-- The `for provider in ["gemini", "claude", "gemma_3n"]` loop body of
`_select_provider`. -/
def select_first_available (st : OrchState) : List ProvId → Option ProvId
  | [] => none
  | p :: ps => if available st p then some p else select_first_available st ps

/-- `_select_provider`: an explicitly preferred, available provider wins;
otherwise an image promotes `gemini`; otherwise the fixed order
`gemini, claude, gemma_3n` is scanned; with nothing available the method
raises `No LLM providers available`. -/
def select_provider (st : OrchState) (preferred : Pref) (hasImage : Bool) :
    Except (List Char) ProvId :=
  let chosen :=
    match preferred with
    | .specific p => if available st p then some p else none
    | _ => none
  match chosen with
  | some p => .ok p
  | none =>
    if hasImage && st.gemini then .ok .gemini
    else
      match select_first_available st [.gemini, .claude, .gemma_3n] with
      | some p => .ok p
      | none => .error ("No LLM providers available".toList)

/-- Outcome of one generation attempt chain: either some provider's
`_call_*` succeeded, or `_fallback_provider` bottomed out in its hard-coded
"technical difficulties" response. -/
inductive GenResult : Type
  | fromProvider : ProvId → GenResult
  | ultimateFallback
  deriving DecidableEq, Repr

/-- The `for provider in ["gemini", "claude"]` loop of `_fallback_provider`,
returning the providers actually invoked and the outcome. -/
def fallback_go (st : OrchState) (ok : ProvId → Bool) :
    List ProvId → List ProvId × GenResult
  | [] => ([], .ultimateFallback)
  | p :: ps =>
    if available st p then
      if ok p then ([p], .fromProvider p)
      else
        let rest := fallback_go st ok ps
        (p :: rest.1, rest.2)
    else fallback_go st ok ps

/-- `_fallback_provider`: attempts `gemini` then `claude` (whatever failed
before), swallowing per-provider exceptions, and never raises — its last
resort is the static fallback response. -/
def fallback_provider (st : OrchState) (ok : ProvId → Bool) :
    List ProvId × GenResult :=
  fallback_go st ok [.gemini, .claude]

/-- `get_ethical_guidance`, reduced to its control flow: provider selection
(outside the `try`, so a selection failure propagates), one call to the
selected provider, and on exception one pass through `_fallback_provider`.
The returned triple is (providers invoked in order, outcome,
`fallback_used`).  No field of `self.providers` is written anywhere in the
method, so the availability state after the call is the availability state
before it. -/
def get_ethical_guidance (st : OrchState) (ok : ProvId → Bool)
    (preferred : Pref) (hasImage : Bool) :
    Except (List Char) (List ProvId × GenResult × Bool) :=
  match select_provider st preferred hasImage with
  | .error e => .error e
  | .ok p =>
    if ok p then .ok ([p], .fromProvider p, false)
    else
      let fb := fallback_provider st ok
      .ok (p :: fb.1, fb.2, true)

/-- The use cases of `self.provider_priorities`. -/
inductive UseCase : Type
  | ethical_classification
  | crisis_detection
  | general_guidance
  | multimodal
  deriving DecidableEq, Repr

instance : Fintype UseCase :=
  ⟨⟨{UseCase.ethical_classification, UseCase.crisis_detection,
     UseCase.general_guidance, UseCase.multimodal}, by decide⟩,
   fun u => by cases u <;> decide⟩

/-- The `provider_priorities` table of `LLMOrchestrator.__init__`. -/
def provider_priorities : UseCase → List ProvId
  | .ethical_classification => [.gemma_3n, .gemini, .claude]
  | .crisis_detection => [.gemma_3n, .claude, .gemini]
  | .general_guidance => [.gemini, .gemma_3n, .claude]
  | .multimodal => [.gemma_3n, .gemini]

/-! ## `services/rag_service_enhanced.py` — `EthicalRAGService` -/

/-- A `(doc, score)` pair as returned by
`vector_store.similarity_search_with_score` (the score is a distance; the
`source` field stands for `doc.metadata["source"]`). -/
structure RawDoc where
  content : List Char
  source : List Char
  score : ℚ
  deriving DecidableEq, Repr

/-- A retrieved-context entry as built by `get_relevant_context`. -/
structure Passage where
  content : List Char
  source : List Char
  relevance_score : ℚ
  deriving DecidableEq, Repr

/-- `1.0 - (score / 2.0)  # Convert distance to relevance` (LangChain
path). -/
def relevance_of_distance (d : ℚ) : ℚ := 1 - d / 2

/-- `1.0 - results['distances'][0][i]` (direct-ChromaDB fallback path). -/
def relevance_of_distance_fallback (d : ℚ) : ℚ := 1 - d

/-- `get_relevant_context` (LangChain path) with its `try/except` boundary:
`search` is the outcome of `similarity_search_with_score` (an exception
inside the `try` block carries a message).  The result is a plain list —
a retrieval failure or an uninitialized store yields `[]`, never an
exception. -/
def get_relevant_context (initialized : Bool)
    (search : Except (List Char) (List RawDoc)) : List Passage :=
  if !initialized then []
  else
    match search with
    | .error _ => []
    | .ok docs => docs.map fun d => ⟨d.content, d.source, relevance_of_distance d.score⟩

/-! ## `api/chat_enhanced.py` — `ask_ethical_guidance` -/

/-- The `EthicalSource` records of step 4 of `ask_ethical_guidance`. -/
structure EthicalSource where
  title : List Char
  content_snippet : List Char
  relevance_score : ℚ
  document_type : List Char
  deriving DecidableEq, Repr

/-- `doc["content"][:200] + "..." if len(doc["content"]) > 200 else
doc["content"]`. -/
def snippet_of (c : List Char) : List Char :=
  if c.length > 200 then c.take 200 ++ ("...".toList) else c

/-- Step 4: `for doc in relevant_context[:3]` builds the attributed
sources. -/
def sources_of (ctx : List Passage) : List EthicalSource :=
  (ctx.take 3).map fun d =>
    ⟨d.source, snippet_of d.content, d.relevance_score, ("ethical_knowledge".toList)⟩

/-- The `content_safety` dict of step 7. -/
structure ContentSafety where
  safety_score : ℚ
  ethical_assessment : List Char
  sensitive_topics : List (List Char)
  deriving DecidableEq, Repr

/-- Steps 1 and 7 of `ask_ethical_guidance`: input moderation gates the
request (an unsafe verdict raises HTTP 400 and no response is assembled,
modelled as `none`); a safe verdict flows into the response's
`content_safety` block, whose `sensitive_topics` are the moderation
flags. -/
def input_moderation_gate (fail : Option (List Char))
    (external : List (List Char)) (text : List Char) : Option ContentSafety :=
  let r := moderate_content fail external text
  if r.is_safe then some ⟨r.confidence, ("approved".toList), r.flags⟩
  else none

/-! ## Helper lemmas -/

/-- Projection of `detect_crisis_situations`: `is_crisis` is exactly
non-emptiness of the indicator list. -/
lemma detect_crisis_is_crisis (text : List Char) :
    (detect_crisis_situations text).is_crisis =
      !(detect_crisis_situations text).indicators.isEmpty := rfl

/-- Every crisis-keyword indicator starts with `crisis_`. -/
lemma crisis_prefix_indicator (kw : List Char) :
    ("crisis_".toList).isPrefixOf (("crisis_indicator_".toList) ++ kw) = true := by
  apply (List.isPrefixOf_iff_prefix).mpr
  have h : ("crisis_indicator_".toList) = ("crisis_".toList) ++ ("indicator_".toList) := by
    decide
  rw [h, List.append_assoc]
  exact List.prefix_append _ _

/-- A crisis keyword hit or crisis pattern hit produces an indicator
starting with `crisis_`. -/
lemma mem_detect_crisis (text : List Char)
    (h : (∃ kw ∈ crisis_keywords, containsSub kw (lowerL text) = true) ∨
         (∃ p ∈ crisis_patterns, reSearch p (lowerL text) = true)) :
    ∃ f ∈ (detect_crisis_situations text).indicators,
      ("crisis_".toList).isPrefixOf f = true := by
  rcases h with ⟨kw, hmem, hsub⟩ | ⟨p, hmem, hsr⟩
  · refine ⟨("crisis_indicator_".toList) ++ replaceSpace kw, ?_, crisis_prefix_indicator _⟩
    show _ ∈ _ ++ _
    exact List.mem_append_left _
      (List.mem_map.mpr ⟨kw, List.mem_filter.mpr ⟨hmem, hsub⟩, rfl⟩)
  · refine ⟨("crisis_pattern_detected".toList), ?_, by decide⟩
    show _ ∈ _ ++ _
    exact List.mem_append_right _
      (List.mem_map.mpr ⟨p, List.mem_filter.mpr ⟨hmem, hsr⟩, rfl⟩)

/-- A flag starting with `crisis_` is not `mild_off_topic`. -/
lemma crisis_flag_ne_mild (f : List Char)
    (h : ("crisis_".toList).isPrefixOf f = true) : f ≠ mildFlag := by
  intro heq
  subst heq
  revert h
  decide

/-- The flag list of the normal-path moderation verdict, in evaluation
order: crisis indicators, off-topic topics, toxicity issues, external
categories. -/
lemma core_flags (external : List (List Char)) (text : List Char) :
    (moderate_content_core external text).flags =
      (if (detect_crisis_situations text).is_crisis
        then (detect_crisis_situations text).indicators else []) ++
      (if (detect_off_topic_content text).is_off_topic
        then (detect_off_topic_content text).topics else []) ++
      (if (check_basic_toxicity text).is_toxic
        then (check_basic_toxicity text).issues else []) ++ external := rfl

/-- The confidence of the normal-path moderation verdict. -/
lemma core_confidence (external : List (List Char)) (text : List Char) :
    (moderate_content_core external text).confidence =
      if (detect_crisis_situations text).is_crisis then (95 / 100 : ℚ)
      else 8 / 10 := rfl

/-- The safety bit of the normal-path moderation verdict. -/
lemma core_is_safe (external : List (List Char)) (text : List Char) :
    (moderate_content_core external text).is_safe =
      ((moderate_content_core external text).flags.isEmpty ||
        (moderate_content_core external text).flags.all fun f => f == mildFlag) := rfl

/-- `_fallback_provider` only ever invokes providers from its hard-coded
`gemini, claude` order. -/
lemma fallback_provider_sublist (st : OrchState) (ok : ProvId → Bool) :
    List.Sublist (fallback_provider st ok).1 [ProvId.gemini, ProvId.claude] := by
  revert st ok
  decide

/-- When `gemini` is available, `_fallback_provider` invokes it first —
whether or not it is the provider that just failed. -/
lemma fallback_provider_head (st : OrchState) (ok : ProvId → Bool) :
    st.gemini = true → (fallback_provider st ok).1.head? = some ProvId.gemini := by
  revert st ok
  decide

/-! ## Claims -/

/-- C1: any crisis keyword hit or crisis pattern match forces
`moderate_content` (on its normal, exception-free path) to an unsafe
verdict with confidence 0.95 and at least one `crisis_*` flag, regardless
of on-topic vocabulary, off-topic/toxicity flags, or externally appended
categories. -/
theorem crisis_overrides_moderation (text : List Char)
    (external : List (List Char))
    (h : (∃ kw ∈ crisis_keywords, containsSub kw (lowerL text) = true) ∨
         (∃ p ∈ crisis_patterns, reSearch p (lowerL text) = true)) :
    (moderate_content none external text).is_safe = false ∧
    (moderate_content none external text).confidence = 95 / 100 ∧
    ∃ f ∈ (moderate_content none external text).flags,
      ("crisis_".toList).isPrefixOf f = true := by
  obtain ⟨f, hf, hpre⟩ := mem_detect_crisis text h
  have hcr : (detect_crisis_situations text).is_crisis = true := by
    rw [detect_crisis_is_crisis]
    simp [List.isEmpty_iff, List.ne_nil_of_mem hf]
  have hmc : moderate_content none external text = moderate_content_core external text := rfl
  have hfl : f ∈ (moderate_content_core external text).flags := by
    rw [core_flags, hcr]
    simp only [if_true]
    exact List.mem_append_left _ (List.mem_append_left _ (List.mem_append_left _ hf))
  refine ⟨?_, ?_, ?_⟩
  · rw [hmc, core_is_safe]
    have h1 : (moderate_content_core external text).flags.isEmpty = false := by
      simp [List.isEmpty_iff, List.ne_nil_of_mem hfl]
    have h2 : ((moderate_content_core external text).flags.all fun g => g == mildFlag) = false := by
      rw [List.all_eq_false]
      exact ⟨f, hfl, by simp [crisis_flag_ne_mild f hpre]⟩
    rw [h1, h2]
    rfl
  · rw [hmc, core_confidence, hcr, if_pos rfl]
  · exact ⟨f, by rw [hmc]; exact hfl, hpre⟩

/-- Witness for C1: the input `suicide` contains a crisis keyword, and the
moderation verdict on it is unsafe with confidence 0.95. -/
theorem crisis_overrides_moderation_witness :
    ((∃ kw ∈ crisis_keywords, containsSub kw (lowerL ("suicide".toList)) = true) ∨
      (∃ p ∈ crisis_patterns, reSearch p (lowerL ("suicide".toList)) = true)) ∧
    (moderate_content none [] ("suicide".toList)).is_safe = false ∧
    (moderate_content none [] ("suicide".toList)).confidence = 95 / 100 :=
  have h : (∃ kw ∈ crisis_keywords, containsSub kw (lowerL ("suicide".toList)) = true) ∨
      (∃ p ∈ crisis_patterns, reSearch p (lowerL ("suicide".toList)) = true) :=
    Or.inl (by decide)
  ⟨h, (crisis_overrides_moderation ("suicide".toList) [] h).1,
      (crisis_overrides_moderation ("suicide".toList) [] h).2.1⟩

/-- C2 (code bug): on the input `bitcoin mindfulness` — which matches the
financial off-topic pattern and contains the on-topic keyword
`mindfulness` — `_detect_off_topic_content` computes the downgraded topic
list `["mild_off_topic"]` but reports `is_off_topic = False` (its
condition demands `on_topic_score == 0`), so `moderate_content` returns
`is_safe = True` with an empty flag list: the `mild_off_topic` marker never
reaches the verdict, contradicting the downgrade the code itself sets
up. -/
theorem mild_off_topic_discarded :
    (detect_off_topic_content ("bitcoin mindfulness".toList)).topics = [mildFlag] ∧
    (detect_off_topic_content ("bitcoin mindfulness".toList)).is_off_topic = false ∧
    (moderate_content none [] ("bitcoin mindfulness".toList)).is_safe = true ∧
    (moderate_content none [] ("bitcoin mindfulness".toList)).flags = [] := by
  refine ⟨?_, ?_, ?_, ?_⟩ <;> decide

/-- C3: a text hitting exactly one harmful keyword and no harmful pattern
passes legacy input moderation but is blocked by legacy output moderation
(input blocks at ≥ 2 hits, output at ≥ 1). -/
theorem input_output_moderation_asymmetry (text : List Char)
    (h1 : harmful_count (lowerL text) = 1)
    (h2 : check_harmful_patterns (lowerL text) = false) :
    check_input text = true ∧ check_output text = false := by
  constructor
  · show (if harmful_count (lowerL text) ≥ 2 then false
      else if check_harmful_patterns (lowerL text) then false else true) = true
    rw [h1, h2]
    rfl
  · show (if harmful_count (lowerL text) ≥ 1 then false
      else if contains_inappropriate_advice (lowerL text) then false else true) = false
    rw [h1]
    rfl

/-- Witness for C3: `violence` hits exactly one harmful keyword and no
pattern; it passes `check_input` and fails `check_output`. -/
theorem input_output_moderation_asymmetry_witness :
    harmful_count (lowerL ("violence".toList)) = 1 ∧
    check_harmful_patterns (lowerL ("violence".toList)) = false ∧
    check_input ("violence".toList) = true ∧
    check_output ("violence".toList) = false :=
  ⟨by decide, by decide,
   (input_output_moderation_asymmetry ("violence".toList) (by decide) (by decide)).1,
   (input_output_moderation_asymmetry ("violence".toList) (by decide) (by decide)).2⟩

/-- C4: the moderation boundary is fail-open.  `moderate_content` has
result type `ModerationResult`, not an exception monad, so no error passes
its boundary; when the body raises (any `fail = some e`), the returned
verdict is permissive (`is_safe = true`), carries the `moderation_error`
flag, and has low confidence 0.1. -/
theorem moderation_fail_open (fail : Option (List Char))
    (external : List (List Char)) (text : List Char) (e : List Char)
    (h : fail = some e) :
    (moderate_content fail external text).is_safe = true ∧
    ("moderation_error".toList) ∈ (moderate_content fail external text).flags ∧
    (moderate_content fail external text).confidence = 1 / 10 := by
  subst h
  exact ⟨rfl, List.mem_singleton.mpr rfl, rfl⟩

/-- Witness for C4 at a concrete internal failure. -/
theorem moderation_fail_open_witness :
    (moderate_content (some ("boom".toList)) [] ("hello".toList)).is_safe = true ∧
    ("moderation_error".toList) ∈
      (moderate_content (some ("boom".toList)) [] ("hello".toList)).flags ∧
    (moderate_content (some ("boom".toList)) [] ("hello".toList)).confidence = 1 / 10 :=
  moderation_fail_open (some ("boom".toList)) [] ("hello".toList) ("boom".toList) rfl

/-- C5 (counterexample): with `gemini` and `claude` available and
`gemini`'s `generate` failing, the first request invokes `gemini`, then
falls back — retrying `gemini` first — before succeeding with `claude`;
and since `LLMOrchestrator` never writes any `available` flag, a second
request on the same state selects the failed `gemini` again instead of
skipping it. -/
theorem failed_provider_not_marked :
    get_ethical_guidance ⟨true, true, false⟩
        (fun p => match p with | .claude => true | _ => false) .auto false =
      .ok ([.gemini, .gemini, .claude], .fromProvider .claude, true) ∧
    select_provider ⟨true, true, false⟩ .auto false = .ok .gemini := by
  exact ⟨rfl, rfl⟩

/-- C5 (amended): when the selected provider's call fails, the
orchestrator retries through `_fallback_provider`, whose attempts follow
the fixed order `gemini, claude` regardless of which provider failed (in
particular it retries `gemini` first whenever `gemini` is available), and
no availability flag changes — a subsequent request repeats the same
selection. -/
theorem generation_error_fallback (st : OrchState) (ok : ProvId → Bool)
    (preferred : Pref) (hasImage : Bool) (p : ProvId)
    (hsel : select_provider st preferred hasImage = .ok p)
    (hfail : ok p = false) :
    get_ethical_guidance st ok preferred hasImage =
      .ok (p :: (fallback_provider st ok).1, (fallback_provider st ok).2, true) ∧
    List.Sublist (fallback_provider st ok).1 [ProvId.gemini, ProvId.claude] ∧
    (st.gemini = true → (fallback_provider st ok).1.head? = some ProvId.gemini) := by
  refine ⟨?_, fallback_provider_sublist st ok, fallback_provider_head st ok⟩
  unfold get_ethical_guidance
  rw [hsel]
  simp [hfail]

/-- Witness for C5 (amended): all calls fail, so the first request runs
`gemini`, retries `gemini`, then `claude`, and bottoms out in the static
fallback response. -/
theorem generation_error_fallback_witness :
    get_ethical_guidance ⟨true, true, false⟩ (fun _ => false) .auto false =
      .ok (ProvId.gemini :: (fallback_provider ⟨true, true, false⟩ (fun _ => false)).1,
           (fallback_provider ⟨true, true, false⟩ (fun _ => false)).2, true) :=
  (generation_error_fallback ⟨true, true, false⟩ (fun _ => false) .auto false
    .gemini rfl rfl).1

/-- C6: assuming the vector store returns its hits ordered by ascending
distance (the documented contract of `similarity_search_with_score`), the
attributed sources are at most 3, ordered by descending relevance score,
and consist of the highest-scoring retrieved passages: every dropped
passage scores no higher than every kept one (ties are kept in retrieval
order, since the kept list is a prefix of the retrieval order). -/
theorem sources_top_three (docs : List RawDoc)
    (hs : List.Pairwise (fun a b : RawDoc => a.score ≤ b.score) docs) :
    (sources_of (get_relevant_context true (.ok docs))).length ≤ 3 ∧
    List.Pairwise (fun a b : EthicalSource => b.relevance_score ≤ a.relevance_score)
      (sources_of (get_relevant_context true (.ok docs))) ∧
    ∀ x ∈ sources_of (get_relevant_context true (.ok docs)),
      ∀ y ∈ (get_relevant_context true (.ok docs)).drop 3,
        y.relevance_score ≤ x.relevance_score := by
  have hctx : get_relevant_context true (.ok docs) =
      docs.map (fun d => ⟨d.content, d.source, relevance_of_distance d.score⟩) := rfl
  set ctx : List Passage :=
    docs.map (fun d => ⟨d.content, d.source, relevance_of_distance d.score⟩) with hctxdef
  have hp : List.Pairwise
      (fun a b : Passage => b.relevance_score ≤ a.relevance_score) ctx := by
    refine List.Pairwise.map _ ?_ hs
    intro a b hab
    show relevance_of_distance b.score ≤ relevance_of_distance a.score
    unfold relevance_of_distance
    linarith
  have hsplit : List.Pairwise
      (fun a b : Passage => b.relevance_score ≤ a.relevance_score)
      (ctx.take 3 ++ ctx.drop 3) := by
    rw [List.take_append_drop]
    exact hp
  have hcross := (List.pairwise_append.mp hsplit).2.2
  rw [hctx]
  refine ⟨?_, ?_, ?_⟩
  · simp only [sources_of, List.length_map, List.length_take]
    exact min_le_left _ _
  · exact List.Pairwise.map _ (fun a b hab => hab)
      (hp.sublist (List.take_sublist 3 ctx))
  · intro x hx y hy
    obtain ⟨px, hpx, rfl⟩ := List.mem_map.mp hx
    exact hcross px hpx y hy

/-- Witness for C6: four retrieved documents with ascending distances
yield at most three sources. -/
theorem sources_top_three_witness :
    List.Pairwise (fun a b : RawDoc => a.score ≤ b.score)
      [(⟨[], [], 0⟩ : RawDoc), ⟨[], [], 1⟩, ⟨[], [], 1⟩, ⟨[], [], 3⟩] ∧
    (sources_of (get_relevant_context true
      (.ok [(⟨[], [], 0⟩ : RawDoc), ⟨[], [], 1⟩, ⟨[], [], 1⟩, ⟨[], [], 3⟩]))).length ≤ 3 :=
  ⟨by decide,
   (sources_top_three [⟨[], [], 0⟩, ⟨[], [], 1⟩, ⟨[], [], 1⟩, ⟨[], [], 3⟩] (by decide)).1⟩

/-- C7 (counterexample): a retrieval hit at distance 4 — nothing in
`get_relevant_context` clamps or restricts the underlying distance —
produces `relevance_score = 1 - 4/2 = -1`, outside `[0, 1]`. -/
theorem relevance_score_out_of_range :
    ∃ p ∈ get_relevant_context true (.ok [⟨[], [], 4⟩]),
      p.relevance_score < 0 := by
  refine ⟨⟨[], [], relevance_of_distance 4⟩, ?_, ?_⟩
  · exact List.mem_singleton.mpr rfl
  · show relevance_of_distance 4 < 0
    unfold relevance_of_distance
    norm_num

/-- C7 (amended): the distance-to-relevance conversion `1 - d/2` is
monotone (larger distance, smaller relevance), and its value lies in
`[0, 1]` exactly when the underlying distance lies in `[0, 2]` — the code
performs no clamping, so out-of-range distances yield out-of-range scores
(likewise `1 - d` on the fallback path, in range iff `d ∈ [0, 1]`). -/
theorem relevance_conversion_amended (d e : ℚ) (h : d ≤ e) :
    relevance_of_distance e ≤ relevance_of_distance d ∧
    ((0 ≤ relevance_of_distance d ∧ relevance_of_distance d ≤ 1) ↔
      (0 ≤ d ∧ d ≤ 2)) ∧
    ((0 ≤ relevance_of_distance_fallback d ∧
        relevance_of_distance_fallback d ≤ 1) ↔ (0 ≤ d ∧ d ≤ 1)) := by
  unfold relevance_of_distance relevance_of_distance_fallback
  refine ⟨by linarith, ?_, ?_⟩
  · constructor
    · rintro ⟨a, b⟩
      constructor <;> linarith
    · rintro ⟨a, b⟩
      constructor <;> linarith
  · constructor
    · rintro ⟨a, b⟩
      constructor <;> linarith
    · rintro ⟨a, b⟩
      constructor <;> linarith

/-- Witness for C7 (amended) at distances 0 and 2. -/
theorem relevance_conversion_amended_witness :
    (0 : ℚ) ≤ 2 ∧ relevance_of_distance 2 ≤ relevance_of_distance 0 :=
  ⟨by norm_num, (relevance_conversion_amended 0 2 (by norm_num)).1⟩

/-- C8: retrieval is fail-open — `get_relevant_context` returns a plain
list (no exception escapes its `try/except`), and both an uninitialized
store and an internal search error yield the empty context. -/
theorem retrieval_failure_nonfatal (initialized : Bool)
    (search : Except (List Char) (List RawDoc))
    (h : initialized = false ∨ ∃ e, search = .error e) :
    get_relevant_context initialized search = [] := by
  rcases h with h | ⟨e, h⟩
  · subst h
    rfl
  · subst h
    cases initialized <;> rfl

/-- Witness for C8 at a concrete search failure. -/
theorem retrieval_failure_nonfatal_witness :
    (true = false ∨ ∃ e, (Except.error ("boom".toList) :
        Except (List Char) (List RawDoc)) = .error e) ∧
    get_relevant_context true (.error ("boom".toList)) = [] :=
  ⟨Or.inr ⟨_, rfl⟩,
   retrieval_failure_nonfatal true (.error ("boom".toList)) (Or.inr ⟨_, rfl⟩)⟩

instance {ε α : Type} [DecidableEq ε] [DecidableEq α] : DecidableEq (Except ε α) :=
  fun x y =>
    match x, y with
    | .ok a, .ok b => decidable_of_iff (a = b) (by simp)
    | .error e, .error f => decidable_of_iff (e = f) (by simp)
    | .ok _, .error _ => isFalse fun hc => Except.noConfusion hc
    | .error _, .ok _ => isFalse fun hc => Except.noConfusion hc

/-- Declarative formulation for the amended C9: the first provider of the
fixed order `gemini, claude, gemma_3n` that is available, or the
`No LLM providers available` error. -/
def first_available_fixed_order (st : OrchState) : Except (List Char) ProvId :=
  match [ProvId.gemini, .claude, .gemma_3n].find? (available st) with
  | some p => .ok p
  | none => .error ("No LLM providers available".toList)

/-- C9 (counterexample), at a reachable state: `gemini` and `claude`
available (both API keys configured), `gemma_3n` unavailable as
`__init__` hard-codes and never changes.  For the `crisis_detection`
use case the priority order is `gemma_3n, claude, gemini`, whose first
available provider is `claude` — yet auto-selection returns `gemini`
from its hard-coded scan order: selection does not iterate the use
case's priority order. -/
theorem selection_ignores_use_case_priorities :
    select_provider ⟨true, true, false⟩ .auto false = .ok .gemini ∧
    (provider_priorities .crisis_detection).find?
      (available ⟨true, true, false⟩) = some .claude ∧
    ProvId.gemini ≠ ProvId.claude :=
  ⟨rfl, rfl, by decide⟩

/-- C9 (amended): an explicitly preferred, available provider is
selected; in every other case — `auto`, an unknown name, or a specified
provider that is not currently available (which selection skips) — an
image payload promotes `gemini` when it is available, and otherwise the
first available provider in the fixed order `gemini, claude, gemma_3n`
is chosen (the per-use-case priority table is not consulted); a selected
provider is always available, and selection fails — with the
`No LLM providers available` error — exactly when no provider is
available.  The "otherwise" hypothesis
`∀ p, preferred = .specific p → available st p = false` holds precisely
when the preferred-provider check of the source fails: for `auto` and
unknown names vacuously, and for a specified provider exactly when it is
unavailable. -/
theorem select_provider_amended :
    ∀ (st : OrchState) (preferred : Pref) (hasImage : Bool),
    (∀ p, preferred = .specific p → available st p = true →
      select_provider st preferred hasImage = .ok p) ∧
    ((∀ p, preferred = .specific p → available st p = false) → hasImage = true →
      st.gemini = true → select_provider st preferred hasImage = .ok .gemini) ∧
    ((∀ p, preferred = .specific p → available st p = false) →
      (hasImage = false ∨ st.gemini = false) →
      select_provider st preferred hasImage = first_available_fixed_order st) ∧
    (∀ p, select_provider st preferred hasImage = .ok p →
      available st p = true) ∧
    ((∀ p, available st p = false) ↔
      select_provider st preferred hasImage =
        .error ("No LLM providers available".toList)) := by
  intro st preferred hasImage
  refine ⟨?_, ?_, ?_, ?_, ?_⟩ <;> revert st preferred hasImage <;> decide

/-- Witness for C9 (amended): an available explicitly preferred provider
is returned, and a specified-but-unavailable provider (`gemma_3n` at the
initial state) is skipped in favour of the fixed-order scan. -/
theorem select_provider_amended_witness :
    select_provider ⟨true, true, true⟩ (.specific .claude) false = .ok .claude ∧
    select_provider ⟨true, true, false⟩ (.specific .gemma_3n) false =
      first_available_fixed_order ⟨true, true, false⟩ :=
  ⟨(select_provider_amended ⟨true, true, true⟩ (.specific .claude) false).1
      .claude rfl rfl,
   (select_provider_amended ⟨true, true, false⟩ (.specific .gemma_3n) false).2.2.1
      (fun p h => by cases h; rfl) (Or.inl rfl)⟩

/-- C10: any request that passes input moderation (so a response is
assembled) carries `content_safety.sensitive_topics` equal to the
moderation flags, and those are always a subset of
`{mild_off_topic, moderation_error}` — in particular they never include a
`crisis_*` or `toxic_language` flag. -/
theorem success_flags_benign (fail : Option (List Char))
    (external : List (List Char)) (text : List Char) (cs : ContentSafety)
    (h : input_moderation_gate fail external text = some cs) :
    (∀ f ∈ cs.sensitive_topics, f = mildFlag ∨ f = ("moderation_error".toList)) ∧
    ∀ f ∈ cs.sensitive_topics,
      ("crisis_".toList).isPrefixOf f = false ∧ f ≠ ("toxic_language".toList) := by
  have main : ∀ f ∈ cs.sensitive_topics,
      f = mildFlag ∨ f = ("moderation_error".toList) := by
    cases fail with
    | some e =>
      have hcs : cs = ⟨1 / 10, ("approved".toList), [("moderation_error".toList)]⟩ := by
        have h' := h
        simp only [input_moderation_gate, moderate_content,
          moderation_error_result, if_true, Option.some.injEq] at h'
        exact h'.symm
      subst hcs
      intro f hf
      exact Or.inr (List.mem_singleton.mp hf)
    | none =>
      cases hs : (moderate_content_core external text).is_safe with
      | false =>
        exfalso
        have h' := h
        simp [input_moderation_gate, moderate_content, hs] at h'
      | true =>
        have hcs : cs = ⟨(moderate_content_core external text).confidence,
            ("approved".toList), (moderate_content_core external text).flags⟩ := by
          have h' := h
          simp [input_moderation_gate, moderate_content, hs] at h'
          exact h'.symm
        subst hcs
        intro f hf
        have hsafe := hs
        rw [core_is_safe, Bool.or_eq_true] at hsafe
        rcases hsafe with hempty | hall
        · rw [List.isEmpty_iff] at hempty
          rw [hempty] at hf
          cases hf
        · exact Or.inl (eq_of_beq (List.all_eq_true.mp hall f hf))
  refine ⟨main, fun f hf => ?_⟩
  rcases main f hf with rfl | rfl
  · exact ⟨by decide, by decide⟩
  · exact ⟨by decide, by decide⟩

/-- Witness for C10: the moderation-error path yields an assembled
response whose single sensitive topic is `moderation_error`. -/
theorem success_flags_benign_witness :
    input_moderation_gate (some ("x".toList)) [] [] =
      some ⟨1 / 10, ("approved".toList), [("moderation_error".toList)]⟩ ∧
    (("moderation_error".toList) = mildFlag ∨
      ("moderation_error".toList) = ("moderation_error".toList)) :=
  ⟨rfl, (success_flags_benign (some ("x".toList)) [] []
      ⟨1 / 10, ("approved".toList), [("moderation_error".toList)]⟩ rfl).1
    ("moderation_error".toList) (List.mem_singleton.mpr rfl)⟩

end Ethicompanion
